import Mathlib

/-
Verification development for the GenAI_ERT repository.

The Python modules under verification are shallowly embedded here:
  * summarization/summarize.py   — chunking, index build, retrieval
  * api/ask_handlers.py          — the ordered /ask handler chain
  * api/main.py                  — the handler-dispatch loop of the /ask route
  * summarization/extract_metrics.py — XBRL instance collection and metric lookup

Python strings are modelled as lists of characters; the file system
(the per-ticker document directory, the FAISS index file and the metadata
JSON file) is modelled as explicit state; Python exceptions are modelled
with Except; machine text operations (strip, lower, slicing, str.join,
substring membership) are modelled directly on character lists.
-/

set_option autoImplicit false

namespace GenAIERT

/-- Python strings, modelled as lists of characters. -/
abbrev PyStr := List Char

/-- Coerce a Lean string literal to the Python-string model. -/
def pys (s : String) : PyStr := s.data

/-- NUL, used as an out-of-range default when peeking at a character. -/
def cNul : Char := Char.ofNat 0

/-- Newline character. -/
def cNl : Char := Char.ofNat 10

/-- The right-brace character (used in ElementTree namespace-qualified tags). -/
def cRBrace : Char := Char.ofNat 125

/-- Python str.lower (ASCII case folding, which is all the repository uses). -/
def pyLower (s : PyStr) : PyStr := s.map Char.toLower

/-- Python str.strip(): remove leading and trailing whitespace. -/
def pyStrip (s : PyStr) : PyStr :=
  ((s.dropWhile Char.isWhitespace).reverse.dropWhile Char.isWhitespace).reverse

/-- Python substring membership: `needle in hay`. -/
def pyContains (hay needle : PyStr) : Bool :=
  (List.range (hay.length + 1)).any (fun i => needle.isPrefixOf (hay.drop i))

/-!
## Python `range(start, stop, step)`

`range` with a positive step yields `start, start + step, ...` while the value
is `< stop`.  The iteration is embedded with structural fuel `stop - start`,
which dominates the number of iterations whenever `step ≥ 1`.
-/

/-- Fuel-driven loop of Python `range` for a positive step. -/
def pyRangeGo (stop step : Nat) : Nat → Nat → List Nat
  | 0, _ => []
  | fuel + 1, start =>
    if start < stop then start :: pyRangeGo stop step fuel (start + step) else []

/-- Python `range(start, stop, step)` for `0 < step` (the only use in the
repository is `range(0, len(content), chunk_size)`). -/
def pyRange (start stop step : Nat) : List Nat :=
  if 0 < step then pyRangeGo stop step (stop - start) start else []

/-!
## The chunking loop of `build_faiss_index_for_ticker`

summarize.py lines 67-73:

    for i in range(0, len(content), chunk_size):
        chunk = content[i : i + chunk_size]
        texts.append(chunk)
        metadata.append({"source": file.name, "chunk_index": i // chunk_size})
-/

/-- The chunk texts produced for one document text by the chunking loop. -/
def docChunks (content : PyStr) (chunkSize : Nat) : List PyStr :=
  (pyRange 0 content.length chunkSize).map (fun i => (content.drop i).take chunkSize)

/-- The `chunk_index` values recorded alongside the chunks (`i // chunk_size`). -/
def docChunkIndices (content : PyStr) (chunkSize : Nat) : List Nat :=
  (pyRange 0 content.length chunkSize).map (fun i => i / chunkSize)

/-!
## Re-slicing in `retrieve_context_for_ticker`

summarize.py lines 125-127 re-read the raw source document and slice

    start = m["chunk_index"] * chunk_size
    snippet = full[start : start + chunk_size]

Note that `build_faiss_index_for_ticker` chunks `file.read_text(...).strip()`
(line 66) while retrieval slices the un-stripped `full` text (line 125).
-/

/-- The slice `full[chunk_index*chunk_size : chunk_index*chunk_size + chunk_size]`
taken by `retrieve_context_for_ticker` when reconstructing a snippet. -/
def retrieveSlice (full : PyStr) (chunkIndex chunkSize : Nat) : PyStr :=
  (full.drop (chunkIndex * chunkSize)).take chunkSize

/-!
## Python values, exceptions and handler outcomes

A `/ask` handler (api/ask_handlers.py) returns a dict, raises a FastAPI
`HTTPException`, raises some other Python exception (which FastAPI surfaces as
an unhandled internal error), or hands control to an external collaborator
(the EDGAR fetcher or the OpenAI completion service, both network I/O outside
this embedding).
-/

/-- Python values appearing in handler answers: strings and dicts. -/
inductive PyVal where
  | s (v : PyStr)
  | dict (entries : List (PyStr × PyVal))

/-- Python exceptions raised by the embedded code. -/
inductive PyErr where
  | typeError (msg : String)
  | indexError (msg : String)
  | attrError (msg : String)
  | fileNotFound (msg : String)
  | runtimeError (msg : String)
deriving DecidableEq

/-- Outcome of running one handler action (or the dispatch loop). -/
inductive PyOutcome where
  /-- The handler returned normally; `v` is the value bound to the
  "answer" key of the returned dict. -/
  | ok (v : PyVal)
  /-- The handler raised `HTTPException(status_code, detail)` — a typed,
  user-facing structured error. -/
  | httpError (status : Nat) (detail : String)
  /-- The handler raised an ordinary Python exception — an unhandled error. -/
  | raised (e : PyErr)
  /-- The handler handed off to an external network collaborator (EDGAR
  fetch / OpenAI completion); its result is outside this embedding. -/
  | netCall (tag : String)

/-!
## Regular-expression predicates of the `/ask` handlers

The handler predicates use a handful of fixed regular expressions.  Each one
is embedded as a decidable existence-of-a-match search over the text, mirroring
`re.search` semantics (leftmost match; `\b` word boundaries; `\D` non-digit;
`\s` whitespace; `re.IGNORECASE` by ASCII case folding; `.` not matching
newline).  Group extraction returns the group of the leftmost match, with a lazy
quantifier taking the shortest stretch, as in the source patterns.
-/

/-- A regex word character (`\w`): alphanumeric or underscore (ASCII scope,
which covers every string the handlers are given). -/
def isWordChar (ch : Char) : Bool := ch.isAlphanum || ch = Char.ofNat 95

/-- No word character immediately before position `i` (so `\b` holds at `i`
when a word character follows). -/
def noWordBefore (s : PyStr) (i : Nat) : Bool :=
  i == 0 || !(isWordChar (s.getD (i - 1) cNul))

/-- No word character at position `i` (so `\b` holds at `i` when a word
character precedes). -/
def noWordAt (s : PyStr) (i : Nat) : Bool :=
  s.length ≤ i || !(isWordChar (s.getD i cNul))

/-- The literal `lit` (already lowercase) matches case-insensitively at
position `i` of `s`. -/
def matchLowerAt (s : PyStr) (i : Nat) (lit : PyStr) : Bool :=
  decide (i + lit.length ≤ s.length) && lit.isPrefixOf ((pyLower s).drop i)

/-- A four-character year `20\d{2}` matches at position `j` of `s`. -/
def yearAt (s : PyStr) (j : Nat) : Bool :=
  decide (j + 4 ≤ s.length) && s.getD j cNul = '2' && s.getD (j + 1) cNul = '0'
    && (s.getD (j + 2) cNul).isDigit && (s.getD (j + 3) cNul).isDigit

/-- `re.search(r"20\d{2}", text)` matches somewhere (used by the "latest"
handlers to reject year-scoped questions). -/
def hasYearToken (s : PyStr) : Bool :=
  (List.range (s.length + 1)).any (fun j => yearAt s j)

/-- `re.search(r"\bnet income\D+?(20\d{2})\b", text, re.IGNORECASE)`:
the captured year of the leftmost match, or `none`
(`NetIncomeYearHandler.PATTERN`).  The outer scan is over match start
positions (leftmost first); the inner scan is over the year position `j`,
smallest first, matching the lazy `\D+?`; the characters strictly between
the literal and the year must be non-digits and nonempty. -/
def netIncomeYearGroup (s : PyStr) : Option PyStr :=
  (List.range (s.length + 1)).findSome? (fun i =>
    if noWordBefore s i && matchLowerAt s i (pys "net income") then
      (List.range (s.length + 1)).findSome? (fun j =>
        if decide (i + 10 < j) && yearAt s j && noWordAt s (j + 4)
            && (List.range (j - (i + 10))).all
                (fun d => !((s.getD (i + 10 + d) cNul).isDigit))
        then some ((s.drop j).take 4) else none)
    else none)

/-- The keyword alternatives of `YearPerformanceHandler.PATTERN`:
`revenue|earnings|net income|perform(?:ed)?|how did` (the optional `(?:ed)?`
is expanded into both alternatives, each followed by `\b`). -/
def yearPerfKeywords : List PyStr :=
  [pys "revenue", pys "earnings", pys "net income", pys "performed",
   pys "perform", pys "how did"]

/-- `re.search(r"\b(?:revenue|earnings|net income|perform(?:ed)?|how did)\b.*?\b(20\d{2})\b", text, re.IGNORECASE)`:
the captured year of the leftmost match, or `none`
(`YearPerformanceHandler.PATTERN`).  `.*?` matches any characters except
newline, shortest first. -/
def yearPerfGroup (s : PyStr) : Option PyStr :=
  (List.range (s.length + 1)).findSome? (fun i =>
    yearPerfKeywords.findSome? (fun kw =>
      if noWordBefore s i && matchLowerAt s i kw && noWordAt s (i + kw.length) then
        (List.range (s.length + 1)).findSome? (fun j =>
          if decide (i + kw.length ≤ j) && noWordBefore s j && yearAt s j
              && noWordAt s (j + 4)
              && (List.range (j - (i + kw.length))).all
                  (fun d => !(s.getD (i + kw.length + d) cNul = cNl))
          then some ((s.drop j).take 4) else none)
      else none))

/-- `re.search(r"\bform\s*n-2\b", text, re.IGNORECASE)` matches
(`FormN2Handler.PATTERN`). -/
def formN2Matches (s : PyStr) : Bool :=
  (List.range (s.length + 1)).any (fun i =>
    noWordBefore s i && matchLowerAt s i (pys "form") &&
    (List.range (s.length + 1)).any (fun j =>
      decide (i + 4 ≤ j) && matchLowerAt s j (pys "n-2") && noWordAt s (j + 3)
        && (List.range (j - (i + 4))).all
            (fun d => (s.getD (i + 4 + d) cNul).isWhitespace)))

/-!
## summarization/extract_metrics.py

`DOCS_DIR` is modelled as a flat list of `(file name, parsed XBRL document)`
pairs; an XBRL document is the document-order list of its elements, each a
namespace-qualified tag (ElementTree "\x7buri\x7dLocal" form) together with
its optional text.
-/

/-- One parsed markup element: qualified tag and optional text content. -/
structure XmlElem where
  tag : PyStr
  text : Option PyStr
deriving DecidableEq

/-- A parsed XBRL instance document: its elements in document order. -/
abbrev XmlDoc := List XmlElem

/-- The DOCS_DIR contents seen by extract_metrics.py. -/
abbrev FsData := List (PyStr × XmlDoc)

/-- Namespace stripping: when a closing brace is present, the part of the tag after the first closing brace (ElementTree qualified-name form). -/
def localName (tag : PyStr) : PyStr :=
  if tag.contains cRBrace then ((tag.dropWhile (fun ch => ch ≠ cRBrace)).drop 1)
  else tag

/-- Return the stripped text of the first element whose namespace-stripped
local name equals `target` and whose text is truthy (non-None, nonempty) —
the element scan of `get_net_income_by_year` lines 142-148 (and of
`get_revenue_by_year` lines 57-63). -/
def xmlFindFirstText (doc : XmlDoc) (target : PyStr) : Option PyStr :=
  doc.findSome? (fun e =>
    match e.text with
    | some txt => if localName e.tag = target ∧ txt ≠ [] then some (pyStrip txt) else none
    | none => none)

/-- First-match association lookup (`dict.get`). -/
def pyLookup {β : Type} (m : List (PyStr × β)) (k : PyStr) : Option β :=
  m.findSome? (fun e => if e.1 = k then some e.2 else none)

/-- Python string `<` (lexicographic by code point). -/
def pyStrLt : PyStr → PyStr → Bool
  | [], [] => false
  | [], _ :: _ => true
  | _ :: _, [] => false
  | a :: as, b :: bs => if a = b then pyStrLt as bs else decide (a < b)

/-- Insert into a list sorted descending by first component. -/
def insertDescByFst {β : Type} (x : PyStr × β) : List (PyStr × β) → List (PyStr × β)
  | [] => [x]
  | y :: ys => if pyStrLt y.1 x.1 then x :: y :: ys else y :: insertDescByFst x ys

/-- `list.sort(key=lambda x: x[0], reverse=True)`. -/
def sortDescByFst {β : Type} (l : List (PyStr × β)) : List (PyStr × β) :=
  l.foldl (fun acc x => insertDescByFst x acc) []

/-- `FILENAME_PATTERN = re.compile(r"^aapl-(\d{8})\.xml$", re.IGNORECASE)`:
`.match` anchored at the start, `$` at the end, a single capture group
holding the eight digits.  Returns group 1 when the whole name matches. -/
def filenamePatternGroup1 (name : PyStr) : Option PyStr :=
  if name.length = 17
      && pyLower (name.take 5) = pys "aapl-"
      && ((name.drop 5).take 8).all Char.isDigit
      && pyLower (name.drop 13) = pys ".xml"
  then some ((name.drop 5).take 8) else none

/-- `DOCS_DIR.glob(f"\x7bticker\x7d-*.xml")` membership test for a file name
(`ticker` already lowercased; glob is case-sensitive). -/
def globTickerXml (ticker name : PyStr) : Bool :=
  (ticker ++ [Char.ofNat 45]).isPrefixOf name
    && (pys ".xml").isSuffixOf name
    && decide (ticker.length + 5 ≤ name.length)

/-- The candidate-collection loop of `_collect_xbrl_instances_by_ticker`
(lines 19-23).  For each globbed file name, the name is matched against
`FILENAME_PATTERN`; the guard compares `m.group(1)` — the eight digits —
against the ticker, so a real ticker never passes, and when the guard does
pass the body reads `m.group(2)`, which does not exist in the one-group
pattern and raises IndexError. -/
def collectCandidatesLoop (ticker : PyStr) :
    List PyStr → Except PyErr (List (PyStr × PyStr))
  | [] => .ok []
  | name :: rest =>
    match filenamePatternGroup1 name with
    | some g1 =>
      if pyLower g1 = ticker then .error (.indexError "no such group")
      else collectCandidatesLoop ticker rest
    | none => collectCandidatesLoop ticker rest

/-- The year-map loop of `_collect_xbrl_instances_by_ticker` (lines 27-34):
keep the first (most recent, after the descending sort) September-dated
candidate per year. -/
def collectYearMapLoop : List (PyStr × PyStr) → List (PyStr × PyStr) →
    List (PyStr × PyStr)
  | [], acc => acc
  | (dateStr, path) :: rest, acc =>
    let year := dateStr.take 4
    let monthDay := dateStr.drop 4
    if (pys "09").isPrefixOf monthDay && (pyLookup acc year).isNone
    then collectYearMapLoop rest (acc ++ [(year, path)])
    else collectYearMapLoop rest acc

/-- `_collect_xbrl_instances_by_ticker(ticker)` (lines 12-36): a map from
year to the single file path chosen for that year. -/
def collectXbrlInstancesByTicker (fsd : FsData) (ticker0 : PyStr) :
    Except PyErr (List (PyStr × PyStr)) := do
  let ticker := pyLower ticker0
  let names := (fsd.filter (fun f => globTickerXml ticker f.1)).map Prod.fst
  let candidates ← collectCandidatesLoop ticker names
  .ok (collectYearMapLoop (sortDescByFst candidates) [])

/-- `get_net_income_by_year(ticker, year)` (lines 124-148).  When the year is
present in the collected map, its value is a single `Path` (not a list), and
the comprehension `[p for p in candidates if ...]` iterates over that `Path`,
raising TypeError; when the year is absent the function returns `None`. -/
def get_net_income_by_year (fsd : FsData) (ticker year : PyStr) :
    Except PyErr (Option PyStr) := do
  let m ← collectXbrlInstancesByTicker fsd ticker
  match pyLookup m year with
  | none => .ok none
  | some _path => .error (.typeError "argument of type PosixPath is not iterable")

/-- `get_revenue_by_year(ticker, year)` (lines 38-63): identical control flow
to `get_net_income_by_year` (only the dead element scan differs, looking for
Revenues / SalesRevenueNet instead of NetIncomeLoss). -/
def get_revenue_by_year (fsd : FsData) (ticker year : PyStr) :
    Except PyErr (Option PyStr) := do
  let m ← collectXbrlInstancesByTicker fsd ticker
  match pyLookup m year with
  | none => .ok none
  | some _path => .error (.typeError "argument of type PosixPath is not iterable")

/-- The per-year loop of `get_net_income_by_years` (lines 159-163). -/
def niYearsLoop (fsd : FsData) (t1 t2 : PyStr) :
    List PyStr → Except PyErr (List (PyStr × (PyStr × PyStr)))
  | [] => .ok []
  | y :: ys => do
    let ni1 ← get_net_income_by_year fsd t1 y
    let ni2 ← get_net_income_by_year fsd t2 y
    let tail ← niYearsLoop fsd t1 t2 ys
    match ni1, ni2 with
    | some v1, some v2 =>
      if v1 ≠ [] ∧ v2 ≠ [] then .ok ((y, (v1, v2)) :: tail) else .ok tail
    | _, _ => .ok tail

/-- `get_net_income_by_years(ticker1, ticker2)` (lines 151-164). -/
def get_net_income_by_years (fsd : FsData) (t1 t2 : PyStr) :
    Except PyErr (List (PyStr × (PyStr × PyStr))) := do
  let m1 ← collectXbrlInstancesByTicker fsd t1
  let m2 ← collectXbrlInstancesByTicker fsd t2
  let common := (m1.map Prod.fst).filter (fun y => (pyLookup m2 y).isSome)
  niYearsLoop fsd t1 t2 common

/-!
## Numeric parsing used by the comparison handlers
-/

/-- Value of a digit string (most significant first). -/
def digitsToNat (l : PyStr) : Nat := l.foldl (fun acc ch => acc * 10 + (ch.toNat - 48)) 0

/-- Python `int(str)`: optional surrounding whitespace, optional sign,
then decimal digits; anything else raises ValueError (`none` here). -/
def pyIntParse (s : PyStr) : Option Int :=
  let t := pyStrip s
  match t with
  | [] => none
  | c :: rest =>
    if c = Char.ofNat 45 then
      if rest ≠ [] ∧ rest.all Char.isDigit then some (-(digitsToNat rest : Int)) else none
    else if c = Char.ofNat 43 then
      if rest ≠ [] ∧ rest.all Char.isDigit then some ((digitsToNat rest : Int)) else none
    else if t.all Char.isDigit then some ((digitsToNat t : Int)) else none

/-- Unsigned decimal literal `digits[.digits]` as an exact rational. -/
def parseUnsignedFloat (body : PyStr) : Option ℚ :=
  let intPart := body.takeWhile (fun ch => ch ≠ Char.ofNat 46)
  let rest := body.dropWhile (fun ch => ch ≠ Char.ofNat 46)
  match rest with
  | [] =>
    if intPart ≠ [] ∧ intPart.all Char.isDigit then some ((digitsToNat intPart : ℚ)) else none
  | _ :: frac =>
    if frac.contains (Char.ofNat 46) then none
    else if (intPart ≠ [] ∨ frac ≠ []) ∧ intPart.all Char.isDigit ∧ frac.all Char.isDigit
    then some ((digitsToNat intPart : ℚ) + (digitsToNat frac : ℚ) / ((10 : ℚ) ^ frac.length))
    else none

/-- Python `float(str)` on the decimal literals appearing in XBRL facts,
modelled with exact rationals (no exponent forms; IEEE rounding of the
parsed value is not modelled — no settled claim depends on it). -/
def pyFloatParse (s : PyStr) : Option ℚ :=
  let t := pyStrip s
  match t with
  | [] => none
  | c :: rest =>
    if c = Char.ofNat 45 then (parseUnsignedFloat rest).map (fun q => -q)
    else if c = Char.ofNat 43 then parseUnsignedFloat rest
    else parseUnsignedFloat t

/-- Python `round(x, 2)` modelled as rounding to a rational with two decimal
places (ties are not hit by the code paths settled here). -/
def pyRound2 (q : ℚ) : ℚ := ((Int.floor (q * 100 + 1 / 2) : ℚ)) / 100

/-- Rendering of a percentage value for the f-string answers (approximates
Python float formatting; dead code in every settled claim). -/
def pctStr (q : ℚ) : PyStr := pys (toString q) ++ [Char.ofNat 37]

/-- `get_profit_percentage_by_years` per-year loop (lines 174-184).  The
metric lookups sit outside the `try`, so their exceptions propagate; the
`try` body skips the year on parse failure or zero revenue
(TypeError / ValueError / ZeroDivisionError are caught by the bare
`except: continue`). -/
def pctYearsLoop (fsd : FsData) (t1 t2 : PyStr) :
    List PyStr → Except PyErr (List (PyStr × (ℚ × ℚ)))
  | [] => .ok []
  | y :: ys => do
    let ni1 ← get_net_income_by_year fsd t1 y
    let rev1 ← get_revenue_by_year fsd t1 y
    let ni2 ← get_net_income_by_year fsd t2 y
    let rev2 ← get_revenue_by_year fsd t2 y
    let tail ← pctYearsLoop fsd t1 t2 ys
    match ni1.bind pyFloatParse, rev1.bind pyFloatParse,
        ni2.bind pyFloatParse, rev2.bind pyFloatParse with
    | some a, some r1, some b, some r2 =>
      if r1 = 0 ∨ r2 = 0 then .ok tail
      else .ok ((y, (pyRound2 (100 * a / r1), pyRound2 (100 * b / r2))) :: tail)
    | _, _, _, _ => .ok tail

/-- `get_profit_percentage_by_years(ticker1, ticker2)` (lines 166-185). -/
def get_profit_percentage_by_years (fsd : FsData) (t1 t2 : PyStr) :
    Except PyErr (List (PyStr × (ℚ × ℚ))) := do
  let m ← get_net_income_by_years fsd t1 t2
  pctYearsLoop fsd t1 t2 (m.map Prod.fst)

/-!
## The `/ask` handler chain (api/ask_handlers.py)

Each handler below embeds one `AskHandler` subclass: its `can_handle`
predicate over the question text and its `handle` action over
`(tickers, text)`.  Actions whose very first effect is a network call
(EDGAR fetch or OpenAI completion) are mapped to `PyOutcome.netCall`.
-/

/-- `NetIncomeYearHandler.can_handle` (lines 43-44). -/
def netIncomeYearCanHandle (s : PyStr) : Bool := (netIncomeYearGroup s).isSome

/-- The per-ticker loop of `NetIncomeYearHandler.handle` (lines 48-52). -/
def niYearResultsLoop (fsd : FsData) (year : PyStr) :
    List PyStr → Except PyErr (List (PyStr × PyVal))
  | [] => .ok []
  | t :: ts => do
    let ni ← get_net_income_by_year fsd t year
    let tail ← niYearResultsLoop fsd year ts
    match ni with
    | some v => if v ≠ [] then .ok ((t, .s v) :: tail) else .ok tail
    | none => .ok tail

/-- `NetIncomeYearHandler.handle` (lines 46-55). -/
def netIncomeYearHandle (fsd : FsData) (tickers : List PyStr) (text : PyStr) : PyOutcome :=
  match netIncomeYearGroup text with
  | none => .raised (.attrError "NoneType object has no attribute group")
  | some year =>
    match niYearResultsLoop fsd year tickers with
    | .error e => .raised e
    | .ok results =>
      if results.isEmpty then
        .ok (.s (pys "No net income data for " ++ (List.intercalate (pys ", ") tickers)
          ++ pys " in " ++ year ++ pys "."))
      else .ok (.dict results)

/-- `LatestNetIncomeHandler.can_handle` (lines 61-63). -/
def latestNetIncomeCanHandle (s : PyStr) : Bool :=
  ([pys "latest net income", pys "net income"].any (fun kw => pyContains (pyLower s) kw))
    && !(hasYearToken s)

/-- `LatestNetIncomeHandler.handle` (lines 65-73).  The loop body calls
`get_latest_net_income(t)`, but `extract_metrics.get_latest_net_income`
(line 65 there) takes no parameters, so for a nonempty ticker list the first
iteration raises TypeError before any data is read.  With no tickers the
loop does not run and the empty results dict raises HTTPException(400). -/
def latestNetIncomeHandle (tickers : List PyStr) (_text : PyStr) : PyOutcome :=
  match tickers with
  | [] => .httpError 400 "No net income data available."
  | _ :: _ =>
    .raised (.typeError "get_latest_net_income() takes 0 positional arguments but 1 was given")

/-- `YearPerformanceHandler.can_handle` (lines 82-83). -/
def yearPerformanceCanHandle (s : PyStr) : Bool := (yearPerfGroup s).isSome

/-- `YearPerformanceHandler.handle` (lines 85-110): parses the year (always a
valid int when the pattern matched), reads `tickers[0]` (IndexError when the
list is empty), then immediately re-fetches filings over the network. -/
def yearPerformanceHandle (tickers : List PyStr) (text : PyStr) : PyOutcome :=
  match yearPerfGroup text with
  | none => .raised (.attrError "NoneType object has no attribute group")
  | some _year =>
    match tickers with
    | [] => .raised (.indexError "list index out of range")
    | _ :: _ => .netCall "fetch_for_ticker, build_faiss_index_for_ticker, get_revenue_by_year"

/-- `LatestRevenueHandler.can_handle` (lines 115-118). -/
def latestRevenueCanHandle (s : PyStr) : Bool :=
  ([pys "latest revenue", pys "recent revenue", pys "revenue"].any
      (fun kw => pyContains (pyLower s) kw))
    && !(hasYearToken s)

/-- `LatestRevenueHandler.handle` (lines 120-128): same arity mismatch as
`LatestNetIncomeHandler` — `get_latest_revenue` takes no parameters but is
called with the ticker. -/
def latestRevenueHandle (tickers : List PyStr) (_text : PyStr) : PyOutcome :=
  match tickers with
  | [] => .httpError 400 "No revenue data available."
  | _ :: _ =>
    .raised (.typeError "get_latest_revenue() takes 0 positional arguments but 1 was given")

/-- `ProfitCompareHandler.can_handle` (lines 132-133). -/
def profitCompareCanHandle (s : PyStr) : Bool :=
  pyContains (pyLower s) (pys "profit") && pyContains (pyLower s) (pys "than")

/-- The year loop of `ProfitCompareHandler.handle` (lines 140-145): first
year (descending) whose two net incomes parse as ints with the first
strictly greater; parse failures are skipped by the `except: continue`. -/
def profitCompareLoop (t1 t2 : PyStr) : List (PyStr × (PyStr × PyStr)) → PyOutcome
  | [] => .ok (.s (pys "No year found where " ++ t1 ++ pys " net income > " ++ t2 ++ pys "."))
  | (year, (ni1, ni2)) :: rest =>
    match pyIntParse ni1, pyIntParse ni2 with
    | some a, some b =>
      if b < a then .ok (.dict [(pys "year", .s year), (t1, .s ni1), (t2, .s ni2)])
      else profitCompareLoop t1 t2 rest
    | _, _ => profitCompareLoop t1 t2 rest

/-- `ProfitCompareHandler.handle` (lines 135-146). -/
def profitCompareHandle (fsd : FsData) (tickers : List PyStr) (_text : PyStr) : PyOutcome :=
  match tickers with
  | t1 :: t2 :: _ =>
    match get_net_income_by_years fsd t1 t2 with
    | .error e => .raised e
    | .ok comp => profitCompareLoop t1 t2 (sortDescByFst comp)
  | _ => .httpError 400 "Please mention two companies to compare profits."

/-- `ProfitPctCompareHandler.can_handle` (lines 150-151). -/
def profitPctCompareCanHandle (s : PyStr) : Bool :=
  pyContains (pyLower s) (pys "profit percentage") && pyContains (pyLower s) (pys "than")

/-- The year loop of `ProfitPctCompareHandler.handle` (lines 158-161). -/
def profitPctLoop (t1 t2 : PyStr) : List (PyStr × (ℚ × ℚ)) → PyOutcome
  | [] =>
    .ok (.s (pys "No year found where " ++ t2 ++ pys " profit percentage > " ++ t1 ++ pys "."))
  | (year, (pct1, pct2)) :: rest =>
    if pct1 < pct2 then
      .ok (.dict [(pys "year", .s year), (t2, .s (pctStr pct2)), (t1, .s (pctStr pct1))])
    else profitPctLoop t1 t2 rest

/-- `ProfitPctCompareHandler.handle` (lines 153-161).  The fewer-than-two
branch executes `raise HTTPException(status=400, detail=...)`; FastAPI
HTTPException has no keyword parameter named `status` (the parameter is
`status_code`), so constructing the exception raises TypeError instead of
producing an HTTPException. -/
def profitPctCompareHandle (fsd : FsData) (tickers : List PyStr) (_text : PyStr) : PyOutcome :=
  match tickers with
  | t1 :: t2 :: _ =>
    match get_profit_percentage_by_years fsd t1 t2 with
    | .error e => .raised e
    | .ok pctMap => profitPctLoop t1 t2 (sortDescByFst pctMap)
  | _ =>
    .raised (.typeError "HTTPException.__init__() got an unexpected keyword argument status")

/-- `StockNewsHandler.can_handle` (lines 167-168). -/
def stockNewsCanHandle (s : PyStr) : Bool :=
  [pys "stock", pys "stocks", pys "news"].any (fun kw => pyContains (pyLower s) kw)

/-- `StockNewsHandler.handle` (lines 170-193): the loop body first evaluates
`get_latest_revenue(t)` — the same zero-parameter arity mismatch as above —
so a nonempty ticker list raises TypeError; no tickers returns the empty
dict. -/
def stockNewsHandle (tickers : List PyStr) (_text : PyStr) : PyOutcome :=
  match tickers with
  | [] => .ok (.dict [])
  | _ :: _ =>
    .raised (.typeError "get_latest_revenue() takes 0 positional arguments but 1 was given")

/-- `FormN2Handler.handle` (lines 230-308): reads `tickers[0]` (IndexError on
an empty list) and then immediately fetches the filing over the network. -/
def formN2Handle (tickers : List PyStr) (_text : PyStr) : PyOutcome :=
  match tickers with
  | [] => .raised (.indexError "list index out of range")
  | _ :: _ => .netCall "fetch_for_ticker, openai chat completion"

/-- `RAGFallbackHandler.handle` (lines 315-320): every ticker goes through
`answer_question_for_ticker` (FAISS retrieval plus OpenAI completion). -/
def ragFallbackHandle (tickers : List PyStr) (_text : PyStr) : PyOutcome :=
  match tickers with
  | [] => .ok (.dict [])
  | _ :: _ => .netCall "answer_question_for_ticker"

/-- One `/ask` handler: a named predicate/action pair, as in the
`AskHandler` subclasses of api/ask_handlers.py. -/
structure Handler where
  name : String
  canHandle : PyStr → Bool
  handle : List PyStr → PyStr → PyOutcome

/-- The ordered handler list `ASK_HANDLERS` (lines 323-333), parametrised by
the DOCS_DIR contents consulted by the metric handlers. -/
def ASK_HANDLERS (fsd : FsData) : List Handler :=
  [⟨"NetIncomeYearHandler", netIncomeYearCanHandle, netIncomeYearHandle fsd⟩,
   ⟨"LatestNetIncomeHandler", latestNetIncomeCanHandle, latestNetIncomeHandle⟩,
   ⟨"YearPerformanceHandler", yearPerformanceCanHandle, yearPerformanceHandle⟩,
   ⟨"LatestRevenueHandler", latestRevenueCanHandle, latestRevenueHandle⟩,
   ⟨"ProfitCompareHandler", profitCompareCanHandle, profitCompareHandle fsd⟩,
   ⟨"ProfitPctCompareHandler", profitPctCompareCanHandle, profitPctCompareHandle fsd⟩,
   ⟨"StockNewsHandler", stockNewsCanHandle, stockNewsHandle⟩,
   ⟨"FormN2Handler", formN2Matches, formN2Handle⟩,
   ⟨"RAGFallbackHandler", fun _ => true, ragFallbackHandle⟩]

/-!
## summarization/summarize.py — per-ticker index lifecycle

The state a build/retrieve pair touches for one ticker:
the document directory `ingestion/data/TICKER` (existence flag plus its
files), the vector-store file `faiss_index/TICKER/TICKER.index` (a list of
embedding vectors of abstract type `Vec`), and the metadata file
`faiss_index/TICKER/TICKER.meta.json` (a list of chunk descriptors).
The embedding model is an abstract parameter `embed : PyStr → Vec`; the
geometry of the nearest-neighbour search is abstracted by an `order`
parameter: the ranking, by increasing distance to the embedded query, of all
stored vector ids — `IndexFlatL2.search(q, k)` then returns the first
`min(k, ntotal)` of them padded to length `k` with id `-1`.
-/

/-- One entry of the metadata array (summarize.py lines 70-73). -/
structure ChunkMeta where
  source : PyStr
  chunk_index : Nat
deriving DecidableEq, Inhabited

/-- The per-ticker file-system state. -/
structure TickerFS (Vec : Type) where
  docsDirExists : Bool
  docs : List (PyStr × PyStr)
  idx : Option (List Vec)
  meta : Option (List ChunkMeta)
deriving DecidableEq

/-- `pathlib.PurePath.suffix`: the last dot-suffix of the name, empty when
the last dot is the first character or absent, or ends the name. -/
def lastDotIdx (name : PyStr) : Option Nat :=
  ((List.range name.length).filter (fun i => name.getD i cNul = Char.ofNat 46)).getLast?

/-- `file.suffix` for a file name. -/
def pySuffix (name : PyStr) : PyStr :=
  match lastDotIdx name with
  | some i => if 0 < i ∧ i + 1 < name.length then name.drop i else []
  | none => []

/-- The suffix filter of the build loop (line 64):
`file.suffix.lower() in (".html", ".htm", ".xml", ".xbrl")`. -/
def eligibleSuffix (name : PyStr) : Bool :=
  [pys ".html", pys ".htm", pys ".xml", pys ".xbrl"].contains (pyLower (pySuffix name))

/-- The `(chunk text, metadata entry)` pairs appended in lockstep for one
document (lines 66-73): the file text is stripped, then chunked. -/
def fileChunkPairs (name raw : PyStr) (c : Nat) : List (PyStr × ChunkMeta) :=
  (pyRange 0 (pyStrip raw).length c).map
    (fun i => (((pyStrip raw).drop i).take c, ⟨name, i / c⟩))

/-- All pairs appended by the build loop over the eligible files. -/
def buildPairs {Vec : Type} (fs : TickerFS Vec) (c : Nat) : List (PyStr × ChunkMeta) :=
  (fs.docs.filter (fun d => eligibleSuffix d.1)).flatMap (fun d => fileChunkPairs d.1 d.2 c)

/-- The reset step (lines 59-60): `if reset and idx_path.exists():
idx_path.unlink()` — only the index file is removed, never the metadata
file. -/
def resetIdx {Vec : Type} (fs : TickerFS Vec) (reset : Bool) : TickerFS Vec :=
  if reset && fs.idx.isSome then { fs with idx := none } else fs

/-- `build_faiss_index_for_ticker(ticker, reset, chunk_size)`
(lines 35-94): missing document directory raises FileNotFoundError; the
reset step may delete the index file; if no chunks were produced the
function prints and returns without writing; otherwise the vectors
(one `embed` output per chunk text, in order) and the metadata list are
written. -/
def build_faiss_index_for_ticker {Vec : Type} (embed : PyStr → Vec)
    (fs : TickerFS Vec) (reset : Bool) (chunk_size : Nat) :
    Except PyErr (TickerFS Vec) :=
  if !fs.docsDirExists then
    .error (.fileNotFound "No docs for ticker. Run fetch_for_ticker first.")
  else
    let fs1 := resetIdx fs reset
    let pairs := buildPairs fs chunk_size
    if pairs.isEmpty then .ok fs1
    else
      .ok { fs1 with
        idx := some (pairs.map (fun p => embed p.1)),
        meta := some (pairs.map Prod.snd) }

/-- The id row `I[0]` returned by `index.search(q_vec, top_k)`: the first
`top_k` ids of the distance ranking `order`, padded with `-1` when the index
holds fewer than `top_k` vectors (FAISS pads missing neighbours with id
`-1`). -/
def faissSearchIds (order : List Nat) (k : Nat) : List Int :=
  ((order.take k).map (fun n : Nat => (n : Int))) ++ List.replicate (k - min k order.length) (-1)

/-- Python list subscription `xs[i]` with an `int` index: negative indices
count from the end; out-of-range raises IndexError. -/
def pyListGet {α : Type} (xs : List α) (i : Int) : Except PyErr α :=
  let j : Int := if i < 0 then i + xs.length else i
  match xs[j.toNat]?, decide (0 ≤ j) with
  | some a, true => .ok a
  | _, _ => .error (.indexError "list index out of range")

/-- `(docs_dir / m["source"]).read_text(...)` (line 125): FileNotFoundError
when the document was deleted from the store. -/
def readDoc {Vec : Type} (fs : TickerFS Vec) (name : PyStr) : Except PyErr PyStr :=
  match pyLookup fs.docs name with
  | some content => .ok content
  | none => .error (.fileNotFound "No such file or directory in docs dir")

/-- A reconstructed snippet: the provenance fields and the re-sliced text
that lines 126-128 format into the returned string. -/
structure Snippet where
  source : PyStr
  chunk_index : Nat
  text : PyStr
deriving DecidableEq

/-- The snippet loop of `retrieve_context_for_ticker` (lines 121-128):
each hit is resolved in `metadata`, its source document re-read and
re-sliced; the first exception aborts the loop as in Python. -/
def snippetsLoop {Vec : Type} (fs : TickerFS Vec) (c : Nat)
    (metadata : List ChunkMeta) : List Int → Except PyErr (List Snippet)
  | [] => .ok []
  | hit :: rest =>
    match pyListGet metadata hit with
    | .error e => .error e
    | .ok m =>
      match readDoc fs m.source with
      | .error e => .error e
      | .ok full =>
        match snippetsLoop fs c metadata rest with
        | .error e => .error e
        | .ok tail =>
          .ok (⟨m.source, m.chunk_index, retrieveSlice full m.chunk_index c⟩ :: tail)

/-- `retrieve_context_for_ticker(ticker, question, top_k, chunk_size)`
(lines 96-130).  `order` abstracts the distance ranking produced by the
embedded query against the stored index. -/
def retrieve_context_for_ticker {Vec : Type} (fs : TickerFS Vec)
    (order : List Nat) (top_k chunk_size : Nat) : Except PyErr (List Snippet) :=
  match fs.idx, fs.meta with
  | some _index, some metadata =>
    snippetsLoop fs chunk_size metadata (faissSearchIds order top_k)
  | _, _ =>
    .error (.runtimeError "Index for ticker not found - run build_faiss_index_for_ticker().")

/-- The snippet retrieval reconstructs for a metadata entry `m`:
source name, chunk index, and the slice of the stored document text. -/
def mkSnippet {Vec : Type} (fs : TickerFS Vec) (c : Nat) (m : ChunkMeta) : Snippet :=
  ⟨m.source, m.chunk_index, retrieveSlice ((pyLookup fs.docs m.source).getD []) m.chunk_index c⟩

/-!
## Concrete states used by counterexamples and witnesses
-/

/-- An index/metadata pair whose single source document has been deleted
from the document store. -/
def c6Fs : TickerFS Nat :=
  { docsDirExists := true, docs := [],
    idx := some [0], meta := some [⟨pys "doc.xml", 0⟩] }

/-- A state with a stale index/metadata pair on disk and one ineligible
document (wrong suffix), so a rebuild collects no chunks. -/
def c8Fs : TickerFS Nat :=
  { docsDirExists := true, docs := [(pys "notes.txt", pys "hello")],
    idx := some [7], meta := some [⟨pys "a.xml", 0⟩] }

/-- A build input with one eligible document "hello" (chunk_size 4 gives
chunks "hell" and "o"). -/
def c8BuildFs : TickerFS Nat :=
  { docsDirExists := true, docs := [(pys "a.xml", pys "hello")],
    idx := none, meta := none }

/-- A document directory that exists but holds no eligible files. -/
def c9Fs : TickerFS Nat :=
  { docsDirExists := true, docs := [(pys "notes.txt", pys "hello")],
    idx := none, meta := none }

/-- A ticker with no document directory at all. -/
def c9NoDirFs : TickerFS Nat :=
  { docsDirExists := false, docs := [], idx := none, meta := none }

/-- A one-chunk index over the document "hello world" for the top_k
padding scenario. -/
def c10Fs : TickerFS Nat :=
  { docsDirExists := true, docs := [(pys "a.xml", pys "hello world")],
    idx := some [7], meta := some [⟨pys "a.xml", 0⟩] }

/-!
## The dispatch loop
-/

/-- The dispatch loop of the `/ask` route (api/main.py lines 220-225):

    for handler in ASK_HANDLERS:
        if handler.can_handle(question):
            return handler.handle(tickers, question)
    raise HTTPException(500, "Unable to handle the question.")

The first component of the result records the names of the handlers whose
predicate was consulted, in order; the second is the returned outcome. -/
def dispatchTrace : List Handler → List PyStr → PyStr → List String × PyOutcome
  | [], _, _ => ([], .httpError 500 "Unable to handle the question.")
  | h :: rest, tickers, q =>
    if h.canHandle q then ([h.name], h.handle tickers q)
    else
      let r := dispatchTrace rest tickers q
      (h.name :: r.1, r.2)

/-- The DOCS_DIR of the C4 scenario: one annual-report XBRL instance for
AAPL, fiscal year 2020 (file name `aapl-20200926.xml`), containing
`NetIncomeLoss = 57411000000`. -/
def c4Doc : XmlDoc :=
  [⟨[Char.ofNat 123] ++ pys "http://fasb.org/us-gaap/2020-01-31" ++ [Char.ofNat 125]
      ++ pys "NetIncomeLoss",
    some (pys "57411000000")⟩]

/-- The C4 document store: exactly the one 2020 annual instance. -/
def c4Fs : FsData := [(pys "aapl-20200926.xml", c4Doc)]

/-!
## Proof development
-/

/-- The fuel argument of `pyRangeGo` is irrelevant once it dominates
`stop - start`: the loop then equals the closed form of Python `range`,
whose elements are `start + k * step`. -/
lemma pyRangeGo_eq_closed (stop step : Nat) (hstep : 0 < step) :
    ∀ (fuel start : Nat), stop - start ≤ fuel →
      pyRangeGo stop step fuel start
        = (List.range ((stop - start + step - 1) / step)).map (fun k => start + k * step) := by
  intro fuel
  induction fuel with
  | zero =>
    intro start h
    have hle : stop ≤ start := by omega
    have hz : (stop - start + step - 1) / step = 0 := by
      have : stop - start = 0 := by omega
      rw [this]
      exact Nat.div_eq_of_lt (by omega)
    simp [pyRangeGo, hz]
  | succ fuel ih =>
    intro start h
    by_cases hlt : start < stop
    · have hrec := ih (start + step) (by omega)
      have hm : (stop - start + step - 1) / step
          = (stop - (start + step) + step - 1) / step + 1 := by
        by_cases hbig : start + step ≤ stop
        · have h1 : stop - start + step - 1 = (stop - (start + step) + step - 1) + step := by
            omega
          rw [h1, Nat.add_div_right _ hstep]
        · have h1 : (stop - (start + step) + step - 1) / step = 0 := by
            have : stop - (start + step) = 0 := by omega
            rw [this]
            exact Nat.div_eq_of_lt (by omega)
          have h2 : (stop - start + step - 1) / step = 1 := by
            apply Nat.div_eq_of_lt_le
            · omega
            · omega
          omega
      rw [pyRangeGo]
      simp only [hlt, if_true]
      rw [hrec, hm, List.range_succ_eq_map]
      simp only [List.map_cons, List.map_map]
      congr 1
      · omega
      · apply List.map_congr_left
        intro k _
        simp only [Function.comp_apply, Nat.succ_mul]
        omega
    · have hz : (stop - start + step - 1) / step = 0 := by
        have : stop - start = 0 := by omega
        rw [this]
        exact Nat.div_eq_of_lt (by omega)
      rw [pyRangeGo]
      simp [hlt, hz]

/-- Closed form of Python `range(0, stop, step)` for a positive step. -/
lemma pyRange_zero_closed (stop step : Nat) (hstep : 0 < step) :
    pyRange 0 stop step
      = (List.range ((stop + step - 1) / step)).map (fun k => k * step) := by
  unfold pyRange
  rw [if_pos hstep, pyRangeGo_eq_closed stop step hstep (stop - 0) 0 (by omega)]
  simp

/-- On the empty document the chunking loop runs zero times. -/
lemma docChunks_nil (c : Nat) : docChunks [] c = [] := by
  unfold docChunks pyRange
  split <;> simp [pyRangeGo]

/-- The chunk list rewritten over the closed form of `range`. -/
lemma docChunks_eq_map (content : PyStr) (c : Nat) (hc : 0 < c) :
    docChunks content c
      = (List.range ((content.length + c - 1) / c)).map
          (fun k => (content.drop (k * c)).take c) := by
  unfold docChunks
  rw [pyRange_zero_closed _ _ hc, List.map_map]
  rfl

/-- The number of chunks is `⌈N / C⌉`, written `(N + C - 1) / C` in `Nat`. -/
lemma docChunks_length (content : PyStr) (c : Nat) (hc : 0 < c) :
    (docChunks content c).length = (content.length + c - 1) / c := by
  rw [docChunks_eq_map _ _ hc]
  simp

/-- The `k`-th produced chunk is `content[k*C : k*C + C]`: the chunks are the
consecutive, non-overlapping slices of the document. -/
lemma docChunks_getElem? (content : PyStr) (c : Nat) (hc : 0 < c) (k : Nat)
    (hk : k < (docChunks content c).length) :
    (docChunks content c)[k]? = some ((content.drop (k * c)).take c) := by
  rw [docChunks_length _ _ hc] at hk
  rw [docChunks_eq_map _ _ hc]
  rw [List.getElem?_map]
  rw [List.getElem?_range hk]
  rfl

/-- The recorded chunk indices are exactly `0, 1, 2, ...`. -/
lemma docChunkIndices_eq_range (content : PyStr) (c : Nat) (hc : 0 < c) :
    docChunkIndices content c = List.range ((content.length + c - 1) / c) := by
  unfold docChunkIndices
  rw [pyRange_zero_closed _ _ hc]
  rw [List.map_map]
  have h : ((fun i => i / c) ∘ fun k => k * c) = fun k => k := by
    funext k
    simp [Nat.mul_div_cancel _ hc]
  rw [h]
  simp

/-- Dropping the first chunk of a nonempty document leaves the chunks of the
rest of the document. -/
lemma docChunks_cons (content : PyStr) (c : Nat) (hc : 0 < c) (hne : content ≠ []) :
    docChunks content c = content.take c :: docChunks (content.drop c) c := by
  have hlen : 0 < content.length := List.length_pos.mpr hne
  unfold docChunks
  rw [pyRange_zero_closed _ _ hc, pyRange_zero_closed _ _ hc]
  have hm : (content.length + c - 1) / c = (content.length - 1) / c + 1 := by
    have h1 : content.length + c - 1 = (content.length - 1) + c := by omega
    rw [h1, Nat.add_div_right _ hc]
  have hm2 : ((content.drop c).length + c - 1) / c = (content.length - 1) / c := by
    simp only [List.length_drop]
    by_cases hbig : c ≤ content.length
    · congr 1
      omega
    · have e1 : content.length - c = 0 := by omega
      rw [e1]
      rw [Nat.div_eq_of_lt (by omega)]
      rw [Nat.div_eq_of_lt (by omega)]
  rw [hm, hm2, List.range_succ_eq_map]
  simp only [List.map_cons, List.map_map]
  congr 1
  · simp
  · apply List.map_congr_left
    intro k _
    simp only [Function.comp_apply]
    rw [List.drop_drop]
    congr 2
    simp [Nat.succ_mul, Nat.add_comm]

/-- Concatenating the chunks in order reconstructs the chunked text. -/
lemma docChunks_flatten (c : Nat) (hc : 0 < c) :
    ∀ (content : PyStr), (docChunks content c).flatten = content := by
  have aux : ∀ (bound : Nat) (content : PyStr), content.length ≤ bound →
      (docChunks content c).flatten = content := by
    intro bound
    induction bound with
    | zero =>
      intro content h
      have hnil : content = [] := List.eq_nil_of_length_eq_zero (by omega)
      subst hnil
      rw [docChunks_nil]
      rfl
    | succ bound ih =>
      intro content h
      by_cases hne : content = []
      · subst hne
        rw [docChunks_nil]
        rfl
      · rw [docChunks_cons content c hc hne]
        rw [List.flatten_cons]
        rw [ih (content.drop c) (by simp [List.length_drop]; omega)]
        exact List.take_append_drop c content
  intro content
  exact aux content.length content (le_refl _)

/-- C1: for every document text of length N and every chunk_size C > 0, the
chunking loop of `build_faiss_index_for_ticker` produces exactly
⌈N/C⌉ = (N + C - 1)/C chunks (0 when N = 0), the recorded chunk indices are
0, 1, 2, ..., the k-th chunk is the slice `content[k*C : k*C + C]` (so the
chunks are consecutive and non-overlapping), and concatenating all chunks in
order reconstructs the chunked document text exactly. -/
theorem C1_chunking_loop (content : PyStr) (c : Nat) (hc : 0 < c) :
    (docChunks content c).length = (content.length + c - 1) / c ∧
    docChunkIndices content c = List.range (docChunks content c).length ∧
    (∀ k, k < (docChunks content c).length →
      (docChunks content c)[k]? = some ((content.drop (k * c)).take c)) ∧
    (docChunks content c).flatten = content := by
  refine ⟨docChunks_length content c hc, ?_, ?_, docChunks_flatten c hc content⟩
  · rw [docChunkIndices_eq_range content c hc, docChunks_length content c hc]
  · intro k hk
    exact docChunks_getElem? content c hc k hk

/-- Witness for C1 at the concrete document "abcde" with chunk_size 2:
3 chunks "ab", "cd", "e" with indices 0, 1, 2. -/
theorem C1_chunking_loop_witness :
    0 < 2 ∧
    ((docChunks (pys "abcde") 2).length = ((pys "abcde").length + 2 - 1) / 2 ∧
     docChunkIndices (pys "abcde") 2 = List.range (docChunks (pys "abcde") 2).length ∧
     (∀ k, k < (docChunks (pys "abcde") 2).length →
       (docChunks (pys "abcde") 2)[k]? = some (((pys "abcde").drop (k * 2)).take 2)) ∧
     (docChunks (pys "abcde") 2).flatten = pys "abcde") :=
  ⟨by decide, C1_chunking_loop (pys "abcde") 2 (by decide)⟩

/-- C7 as stated is false: build time chunks the stripped text
`content.strip()` while retrieval slices the raw stored text, so for the
stored document " a" (leading space) with chunk_size 2, the chunk embedded
with chunk_index 0 is "a" but the retrieval slice `full[0:2]` is " a". -/
theorem C7_counterexample :
    (docChunks (pyStrip (pys " a")) 2)[0]? = some (pys "a") ∧
    retrieveSlice (pys " a") 0 2 = pys " a" ∧
    (docChunks (pyStrip (pys " a")) 2)[0]? ≠ some (retrieveSlice (pys " a") 0 2) := by
  refine ⟨by decide, by decide, ?_⟩
  intro h
  simp only [docChunks, pyStrip, pyRange, pyRangeGo, retrieveSlice, pys] at h
  revert h
  decide

/-- C7 amended: the offset arithmetic of the round-trip is correct on the text
that was actually chunked — for every chunk recorded with chunk_index k,
slicing the *stripped* stored document text at
`[k*chunk_size : k*chunk_size + chunk_size]` reproduces exactly the chunk text
that was embedded.  (Equivalently, the claim as stated holds whenever
stripping does not change the stored document.) -/
theorem C7_roundtrip_amended (full : PyStr) (c k : Nat) (hc : 0 < c)
    (hk : k < (docChunks (pyStrip full) c).length) :
    (docChunks (pyStrip full) c)[k]? = some (retrieveSlice (pyStrip full) k c) :=
  docChunks_getElem? (pyStrip full) c hc k hk

/-- Witness for the amended C7 at the stored document " a" with chunk_size 2:
the only recorded chunk re-slices from the stripped text to "a". -/
theorem C7_roundtrip_amended_witness :
    0 < 2 ∧ 0 < (docChunks (pyStrip (pys " a")) 2).length ∧
    (docChunks (pyStrip (pys " a")) 2)[0]? = some (retrieveSlice (pyStrip (pys " a")) 0 2) :=
  ⟨by decide, by decide, C7_roundtrip_amended (pys " a") 2 0 (by decide) (by decide)⟩

/-- C2: first match wins. If the ordered handler list decomposes as
`pre ++ h1 :: mid ++ h2 :: post` where no handler in `pre` accepts the
question and both `h1` and `h2` accept it, then the dispatch loop returns
exactly `h1.handle tickers q` (the action of the earlier-ordered handler), and the
only predicates consulted are those of `pre` and `h1` — in particular no
handler after the first match, `h2` included, is consulted. -/
theorem C2_first_match_wins (pre mid post : List Handler) (h1 h2 : Handler)
    (tickers : List PyStr) (q : PyStr)
    (hpre : ∀ h ∈ pre, h.canHandle q = false)
    (hm1 : h1.canHandle q = true) (_hm2 : h2.canHandle q = true) :
    (dispatchTrace (pre ++ h1 :: mid ++ h2 :: post) tickers q).2
        = h1.handle tickers q ∧
    (dispatchTrace (pre ++ h1 :: mid ++ h2 :: post) tickers q).1
        = pre.map Handler.name ++ [h1.name] := by
  induction pre with
  | nil =>
    simp [dispatchTrace, hm1]
  | cons p ps ih =>
    have hp : p.canHandle q = false := hpre p (by simp)
    have hps : ∀ h ∈ ps, h.canHandle q = false := fun h hh => hpre h (by simp [hh])
    have hih := ih hps
    simp only [List.cons_append, dispatchTrace, hp, Bool.false_eq_true, if_false,
      List.map_cons, List.cons.injEq]
    exact ⟨hih.1, trivial, hih.2⟩

/-- Witness for C2 on the real handler chain: the question
"profit percentage than" is accepted by both `ProfitCompareHandler`
(position 4) and `ProfitPctCompareHandler` (position 5) and rejected by the
four handlers before them; dispatch runs `ProfitCompareHandler.handle` and
consults nothing past it. -/
theorem C2_first_match_wins_witness :
    (dispatchTrace (ASK_HANDLERS []) [pys "AAPL", pys "MSFT"] (pys "profit percentage than")).2
        = profitCompareHandle [] [pys "AAPL", pys "MSFT"] (pys "profit percentage than") ∧
    (dispatchTrace (ASK_HANDLERS []) [pys "AAPL", pys "MSFT"] (pys "profit percentage than")).1
        = ["NetIncomeYearHandler", "LatestNetIncomeHandler", "YearPerformanceHandler",
           "LatestRevenueHandler", "ProfitCompareHandler"] := by
  have h := C2_first_match_wins
    [⟨"NetIncomeYearHandler", netIncomeYearCanHandle, netIncomeYearHandle []⟩,
     ⟨"LatestNetIncomeHandler", latestNetIncomeCanHandle, latestNetIncomeHandle⟩,
     ⟨"YearPerformanceHandler", yearPerformanceCanHandle, yearPerformanceHandle⟩,
     ⟨"LatestRevenueHandler", latestRevenueCanHandle, latestRevenueHandle⟩]
    []
    [⟨"StockNewsHandler", stockNewsCanHandle, stockNewsHandle⟩,
     ⟨"FormN2Handler", formN2Matches, formN2Handle⟩,
     ⟨"RAGFallbackHandler", fun _ => true, ragFallbackHandle⟩]
    ⟨"ProfitCompareHandler", profitCompareCanHandle, profitCompareHandle []⟩
    ⟨"ProfitPctCompareHandler", profitPctCompareCanHandle, profitPctCompareHandle []⟩
    [pys "AAPL", pys "MSFT"] (pys "profit percentage than")
    (by decide) (by decide) (by decide)
  exact h

/-- C3 fails on the code: the question "latest net income for AAPL" with a
nonempty ticker list is rejected by `NetIncomeYearHandler` (no year token)
and accepted by `LatestNetIncomeHandler`, whose action calls the
zero-parameter `get_latest_net_income` with one argument — so the dispatch
loop surfaces a plain TypeError, not a dict and not an HTTPException,
whatever the document store contains. -/
theorem C3_dispatch_unhandled_typeerror (fsd : FsData) (t : PyStr) (ts : List PyStr) :
    (dispatchTrace (ASK_HANDLERS fsd) (t :: ts) (pys "latest net income for AAPL")).2
      = .raised (.typeError
          "get_latest_net_income() takes 0 positional arguments but 1 was given") := by
  rfl

/-- C4 fails on the code: although the stored document does contain
`NetIncomeLoss = 57411000000` under a namespace-qualified tag (fourth
conjunct), `_collect_xbrl_instances_by_ticker` compares the file-name
eight-digit date capture `m.group(1)` against the ticker, so it collects
nothing (first conjunct) and `get_net_income_by_year("AAPL", 2020)` returns
`None` instead of `57411000000`; only the 2019 half of the claim
(NotFound → `None`) holds. -/
theorem C4_net_income_lookup_returns_none :
    collectXbrlInstancesByTicker c4Fs (pys "AAPL") = .ok [] ∧
    get_net_income_by_year c4Fs (pys "AAPL") (pys "2020") = .ok none ∧
    get_net_income_by_year c4Fs (pys "AAPL") (pys "2019") = .ok none ∧
    xmlFindFirstText c4Doc (pys "NetIncomeLoss") = some (pys "57411000000") :=
  ⟨rfl, rfl, rfl, rfl⟩

/-- C5 fails on the code for one of the two handlers: with a single resolved
ticker, `ProfitCompareHandler` raises the structured
`HTTPException(status_code=400)` the claim describes, but
`ProfitPctCompareHandler` executes `HTTPException(status=400, ...)` — an
invalid keyword — and therefore raises a plain TypeError, a generic
exception rather than an Ambiguous-style structured error. -/
theorem C5_comparison_with_one_ticker (fsd : FsData) (t text : PyStr) :
    profitCompareHandle fsd [t] text
        = .httpError 400 "Please mention two companies to compare profits." ∧
    profitPctCompareHandle fsd [t] text
        = .raised (.typeError
            "HTTPException.__init__() got an unexpected keyword argument status") :=
  ⟨rfl, rfl⟩

/-- Reading a present document succeeds with its content. -/
lemma readDoc_ok {Vec : Type} (fs : TickerFS Vec) (name : PyStr) (content : PyStr)
    (h : pyLookup fs.docs name = some content) : readDoc fs name = .ok content := by
  unfold readDoc
  rw [h]

/-- Reading a deleted document raises FileNotFoundError. -/
lemma readDoc_missing {Vec : Type} (fs : TickerFS Vec) (name : PyStr)
    (h : pyLookup fs.docs name = none) :
    readDoc fs name = .error (.fileNotFound "No such file or directory in docs dir") := by
  unfold readDoc
  rw [h]

/-- A nonnegative in-range subscript returns the element at that position. -/
lemma pyListGet_ofNat {α : Type} (xs : List α) (i : Nat) (d : α) (h : i < xs.length) :
    pyListGet xs (i : Int) = .ok (xs.getD i d) := by
  unfold pyListGet
  have h0 : ¬(((i : Nat) : Int) < 0) := by omega
  simp only [h0, if_false]
  have ht : ((i : Nat) : Int).toNat = i := rfl
  rw [ht]
  rw [List.getElem?_eq_getElem h]
  rw [List.getD_eq_getElem _ d h]
  have hge : decide ((0 : Int) ≤ ((i : Nat) : Int)) = true := by
    simp only [decide_eq_true_eq]
    omega
  rw [hge]

/-- Subscript `-1` on a nonempty list returns its last element. -/
lemma pyListGet_neg_one {α : Type} (xs : List α) (d : α) (h : 0 < xs.length) :
    pyListGet xs (-1) = .ok (xs.getD (xs.length - 1) d) := by
  unfold pyListGet
  have hlt : ((-1 : Int) < 0) := by omega
  simp only [hlt, if_true]
  have hj : ((-1 : Int) + xs.length).toNat = xs.length - 1 := by omega
  have hge : decide ((0 : Int) ≤ -1 + xs.length) = true := by
    simp only [decide_eq_true_eq]
    omega
  rw [hj, hge]
  have hlen : xs.length - 1 < xs.length := by omega
  rw [List.getElem?_eq_getElem hlen]
  rw [List.getD_eq_getElem _ d hlen]

/-- C6 as stated is false at a concrete state: a one-chunk index whose
single source document has been deleted makes
`retrieve_context_for_ticker` raise FileNotFoundError instead of returning
the empty snippet list. -/
theorem C6_counterexample :
    retrieve_context_for_ticker c6Fs [0] 1 1000
        = .error (.fileNotFound "No such file or directory in docs dir") ∧
    retrieve_context_for_ticker c6Fs [0] 1 1000 ≠ .ok [] := by
  refine ⟨rfl, ?_⟩
  intro h
  exact Except.noConfusion h

/-- C6 amended: when index and metadata files exist and the first
nearest-neighbour hit names a source document that has been deleted from the
document store since indexing, `retrieve_context_for_ticker` raises
FileNotFoundError — it does not return an empty sequence. -/
theorem C6_deleted_source_raises {Vec : Type} (fs : TickerFS Vec)
    (index : List Vec) (metadata : List ChunkMeta) (order : List Nat)
    (k c : Nat) (hit : Int) (m : ChunkMeta)
    (hidx : fs.idx = some index) (hmeta : fs.meta = some metadata)
    (hhead : (faissSearchIds order k).head? = some hit)
    (hm : pyListGet metadata hit = .ok m)
    (hmiss : pyLookup fs.docs m.source = none) :
    retrieve_context_for_ticker fs order k c
      = .error (.fileNotFound "No such file or directory in docs dir") := by
  obtain ⟨dd, docs, idx, meta⟩ := fs
  simp only at hidx hmeta hmiss
  subst hidx
  subst hmeta
  unfold retrieve_context_for_ticker
  cases hids : faissSearchIds order k with
  | nil => rw [hids] at hhead; exact Option.noConfusion hhead
  | cons a rest =>
    rw [hids] at hhead
    have ha : a = hit := by
      simp only [List.head?_cons, Option.some.injEq] at hhead
      exact hhead
    subst ha
    unfold snippetsLoop
    rw [hm]
    dsimp only
    have hread := readDoc_missing (TickerFS.mk dd docs (some index) (some metadata)) m.source hmiss
    rw [hread]

/-- Witness for the amended C6 at the concrete deleted-document state. -/
theorem C6_deleted_source_raises_witness :
    retrieve_context_for_ticker c6Fs [0] 1 1000
      = .error (.fileNotFound "No such file or directory in docs dir") :=
  C6_deleted_source_raises c6Fs [0] [⟨pys "doc.xml", 0⟩] [0] 1 1000 0 ⟨pys "doc.xml", 0⟩
    rfl rfl rfl rfl rfl

/-- C8 as stated is false at a concrete state: a `reset=True` rebuild that
finds no eligible chunks deletes the index file but leaves the previous
metadata file in place — one of the pair is removed without the other. -/
theorem C8_counterexample :
    c8Fs.idx.isSome = true ∧ c8Fs.meta.isSome = true ∧
    build_faiss_index_for_ticker (fun _ : PyStr => (0 : Nat)) c8Fs true 1000
      = .ok { c8Fs with idx := none } ∧
    ({ c8Fs with idx := none } : TickerFS Nat).idx.isSome = false ∧
    ({ c8Fs with idx := none } : TickerFS Nat).meta = some [⟨pys "a.xml", 0⟩] :=
  ⟨rfl, rfl, rfl, rfl, rfl⟩

/-- C8 amended: every build that finds eligible chunks writes the vector
store and the metadata array together, with equal lengths and matching
positional order — the vector at position i is the embedding of the chunk
text whose descriptor is metadata[i].  (A reset=True rebuild that finds no
eligible chunks, however, removes the index file while keeping the stale
metadata file; see the counterexample.) -/
theorem C8_build_pair_invariant {Vec : Type} (embed : PyStr → Vec)
    (fs : TickerFS Vec) (reset : Bool) (c : Nat)
    (hdir : fs.docsDirExists = true) (hne : buildPairs fs c ≠ []) :
    build_faiss_index_for_ticker embed fs reset c
      = .ok { docsDirExists := fs.docsDirExists, docs := fs.docs,
              idx := some ((buildPairs fs c).map (fun p => embed p.1)),
              meta := some ((buildPairs fs c).map Prod.snd) } ∧
    ((buildPairs fs c).map (fun p => embed p.1)).length
      = ((buildPairs fs c).map Prod.snd).length ∧
    (∀ (i : Nat) (p : PyStr × ChunkMeta), (buildPairs fs c)[i]? = some p →
      ((buildPairs fs c).map (fun p => embed p.1))[i]? = some (embed p.1) ∧
      ((buildPairs fs c).map Prod.snd)[i]? = some p.2) := by
  obtain ⟨dd, docs, idx, meta⟩ := fs
  simp only at hdir
  subst hdir
  refine ⟨?_, by simp, ?_⟩
  · unfold build_faiss_index_for_ticker
    have hb : (buildPairs (TickerFS.mk true docs idx meta) c).isEmpty = false := by
      rw [List.isEmpty_eq_false]
      exact hne
    simp only [Bool.not_true, Bool.false_eq_true, if_false, hb]
    unfold resetIdx
    split <;> rfl
  · intro i p hp
    constructor
    · rw [List.getElem?_map, hp]
      rfl
    · rw [List.getElem?_map, hp]
      rfl

/-- Witness for the amended C8 on a one-document store ("hello", chunk_size
4, chunks "hell" and "o"), with the embedding provider abstracted as the
length function. -/
theorem C8_build_pair_invariant_witness :
    buildPairs c8BuildFs 4 ≠ [] ∧
    (build_faiss_index_for_ticker (fun p : PyStr => p.length) c8BuildFs false 4
      = .ok { docsDirExists := c8BuildFs.docsDirExists, docs := c8BuildFs.docs,
              idx := some ((buildPairs c8BuildFs 4).map (fun p => p.1.length)),
              meta := some ((buildPairs c8BuildFs 4).map Prod.snd) } ∧
    ((buildPairs c8BuildFs 4).map (fun p => p.1.length)).length
      = ((buildPairs c8BuildFs 4).map Prod.snd).length ∧
    (∀ (i : Nat) (p : PyStr × ChunkMeta), (buildPairs c8BuildFs 4)[i]? = some p →
      ((buildPairs c8BuildFs 4).map (fun p => p.1.length))[i]? = some p.1.length ∧
      ((buildPairs c8BuildFs 4).map Prod.snd)[i]? = some p.2)) :=
  ⟨by decide,
   C8_build_pair_invariant (fun p : PyStr => p.length) c8BuildFs false 4 rfl (by decide)⟩

/-- C9 as stated is false at a concrete state: for a ticker whose document
directory exists but contains no eligible files, the build returns normally
(printing a message) with the state unchanged — it does not fail with a
NotFound-style error. -/
theorem C9_counterexample :
    c9Fs.docsDirExists = true ∧
    build_faiss_index_for_ticker (fun _ : PyStr => (0 : Nat)) c9Fs false 1000 = .ok c9Fs := by
  exact ⟨rfl, rfl⟩

/-- C9 amended: a ticker with no document directory makes the build raise
FileNotFoundError and write nothing; a directory with no eligible chunks
makes the build return silently without writing an index (and, when
reset=True, after deleting any existing index file). -/
theorem C9_build_missing_docs {Vec : Type} (embed : PyStr → Vec)
    (fs : TickerFS Vec) (reset : Bool) (c : Nat) :
    (fs.docsDirExists = false →
      build_faiss_index_for_ticker embed fs reset c
        = .error (.fileNotFound "No docs for ticker. Run fetch_for_ticker first.")) ∧
    (fs.docsDirExists = true → buildPairs fs c = [] →
      build_faiss_index_for_ticker embed fs reset c = .ok (resetIdx fs reset) ∧
      (resetIdx fs reset).meta = fs.meta ∧
      (resetIdx fs reset).idx = (if reset && fs.idx.isSome then none else fs.idx)) := by
  constructor
  · intro h
    unfold build_faiss_index_for_ticker
    rw [h]
    rfl
  · intro hdir hpairs
    refine ⟨?_, ?_, ?_⟩
    · unfold build_faiss_index_for_ticker
      rw [hdir]
      have hb : (buildPairs fs c).isEmpty = true := by
        rw [hpairs]
        rfl
      simp only [Bool.not_true, Bool.false_eq_true, if_false, hb, if_true]
    · unfold resetIdx
      split <;> rfl
    · unfold resetIdx
      by_cases hcond : (reset && fs.idx.isSome) = true
      · simp [hcond]
      · simp [hcond]

/-- Witness for the amended C9: a missing document directory raises
FileNotFoundError, and a reset build over a directory with only an
ineligible file deletes nothing new but writes nothing either. -/
theorem C9_build_missing_docs_witness :
    (build_faiss_index_for_ticker (fun _ : PyStr => (0 : Nat)) c9NoDirFs false 1000
      = .error (.fileNotFound "No docs for ticker. Run fetch_for_ticker first.")) ∧
    (build_faiss_index_for_ticker (fun _ : PyStr => (0 : Nat)) c9Fs true 1000
        = .ok (resetIdx c9Fs true) ∧
     (resetIdx c9Fs true).meta = c9Fs.meta ∧
     (resetIdx c9Fs true).idx = (if true && c9Fs.idx.isSome then none else c9Fs.idx)) :=
  ⟨(C9_build_missing_docs (fun _ : PyStr => (0 : Nat)) c9NoDirFs false 1000).1 rfl,
   (C9_build_missing_docs (fun _ : PyStr => (0 : Nat)) c9Fs true 1000).2 rfl (by decide)⟩

/-- Loop evaluation on valid non-negative hits: each resolves to its
metadata entry and re-slices its (present) source document. -/
lemma snippetsLoop_nat_ids {Vec : Type} (fs : TickerFS Vec) (c : Nat)
    (md : List ChunkMeta)
    (hdocs : ∀ m ∈ md, (pyLookup fs.docs m.source).isSome) :
    ∀ (is : List Nat), (∀ i ∈ is, i < md.length) →
      snippetsLoop fs c md (is.map (fun n : Nat => (n : Int)))
        = .ok (is.map (fun i => mkSnippet fs c (md.getD i default))) := by
  intro is
  induction is with
  | nil => intro _; rfl
  | cons i it ih =>
    intro hbound
    have hi : i < md.length := hbound i (by simp)
    simp only [List.map_cons]
    unfold snippetsLoop
    rw [pyListGet_ofNat md i default hi]
    dsimp only
    have hmem : md.getD i default ∈ md := by
      rw [List.getD_eq_getElem _ _ hi]
      exact List.getElem_mem hi
    obtain ⟨content, hcontent⟩ := Option.isSome_iff_exists.mp (hdocs _ hmem)
    rw [readDoc_ok fs _ content hcontent]
    dsimp only
    rw [ih (fun j hj => hbound j (by simp [hj]))]
    dsimp only
    unfold mkSnippet
    rw [hcontent]
    rfl

/-- Loop evaluation on the `-1` padding: every padded hit resolves, by
Python negative indexing, to the last metadata entry. -/
lemma snippetsLoop_pad {Vec : Type} (fs : TickerFS Vec) (c : Nat)
    (md : List ChunkMeta) (hpos : 0 < md.length)
    (hlast : (pyLookup fs.docs (md.getD (md.length - 1) default).source).isSome) :
    ∀ p, snippetsLoop fs c md (List.replicate p (-1))
      = .ok (List.replicate p (mkSnippet fs c (md.getD (md.length - 1) default))) := by
  intro p
  induction p with
  | zero => rfl
  | succ p ih =>
    rw [List.replicate_succ]
    unfold snippetsLoop
    rw [pyListGet_neg_one md default hpos]
    dsimp only
    obtain ⟨content, hcontent⟩ := Option.isSome_iff_exists.mp hlast
    rw [readDoc_ok fs _ content hcontent]
    dsimp only
    rw [ih]
    dsimp only
    rw [List.replicate_succ]
    unfold mkSnippet
    rw [hcontent]
    rfl

/-- The snippet loop distributes over appended hit lists when both halves
succeed. -/
lemma snippetsLoop_append {Vec : Type} (fs : TickerFS Vec) (c : Nat)
    (md : List ChunkMeta) :
    ∀ (a b : List Int) (la lb : List Snippet),
      snippetsLoop fs c md a = .ok la → snippetsLoop fs c md b = .ok lb →
      snippetsLoop fs c md (a ++ b) = .ok (la ++ lb) := by
  intro a
  induction a with
  | nil =>
    intro b la lb ha hb
    unfold snippetsLoop at ha
    have hla : la = [] := by
      cases ha
      rfl
    subst hla
    simpa using hb
  | cons x xs ih =>
    intro b la lb ha hb
    rw [List.cons_append]
    unfold snippetsLoop at ha ⊢
    cases hg : pyListGet md x with
    | error e =>
      rw [hg] at ha
      simp at ha
    | ok m =>
      rw [hg] at ha
      dsimp only at ha
      dsimp only
      cases hr : readDoc fs m.source with
      | error e =>
        rw [hr] at ha
        simp at ha
      | ok full =>
        rw [hr] at ha
        dsimp only at ha
        dsimp only
        cases ht : snippetsLoop fs c md xs with
        | error e =>
          rw [ht] at ha
          simp at ha
        | ok tail =>
          rw [ht] at ha
          dsimp only at ha
          injection ha with hla
          subst hla
          rw [ih b tail lb ht hb]
          rfl

/-- C10: with an index of n ≥ 1 chunks and top_k > n, retrieval still
returns exactly top_k snippets: the search pads the missing hits with id
-1, and metadata[-1] resolves by Python negative indexing to the last
metadata entry, so the padded tail duplicates the last indexed chunk
instead of being omitted or raising. -/
theorem C10_topk_pads_with_last {Vec : Type} (fs : TickerFS Vec)
    (index : List Vec) (metadata : List ChunkMeta) (order : List Nat) (k c : Nat)
    (hidx : fs.idx = some index) (hmeta : fs.meta = some metadata)
    (hord : ∀ i ∈ order, i < metadata.length)
    (hlen : order.length = metadata.length)
    (hpos : 0 < metadata.length) (hk : metadata.length < k)
    (hdocs : ∀ m ∈ metadata, (pyLookup fs.docs m.source).isSome) :
    retrieve_context_for_ticker fs order k c
      = .ok (order.map (fun i => mkSnippet fs c (metadata.getD i default))
          ++ List.replicate (k - metadata.length)
              (mkSnippet fs c (metadata.getD (metadata.length - 1) default))) ∧
    (order.map (fun i => mkSnippet fs c (metadata.getD i default))
        ++ List.replicate (k - metadata.length)
            (mkSnippet fs c (metadata.getD (metadata.length - 1) default))).length = k := by
  have hlast : (pyLookup fs.docs (metadata.getD (metadata.length - 1) default).source).isSome := by
    apply hdocs
    rw [List.getD_eq_getElem _ _ (by omega)]
    exact List.getElem_mem _
  constructor
  · have hids : faissSearchIds order k
        = (order.map (fun n : Nat => (n : Int))) ++ List.replicate (k - metadata.length) (-1) := by
      unfold faissSearchIds
      rw [List.take_of_length_le (by omega)]
      rw [Nat.min_eq_right (by omega)]
      rw [hlen]
    obtain ⟨dd, docs, idx, meta⟩ := fs
    simp only at hidx hmeta
    subst hidx
    subst hmeta
    unfold retrieve_context_for_ticker
    rw [hids]
    exact snippetsLoop_append _ _ _ _ _ _ _
      (snippetsLoop_nat_ids _ _ _ hdocs order hord)
      (snippetsLoop_pad _ _ _ hpos hlast (k - metadata.length))
  · rw [List.length_append, List.length_map, List.length_replicate, hlen]
    omega

/-- Witness for C10: a one-chunk index over "hello world" queried with
top_k = 2 and chunk_size 4 returns two snippets, the padded second one
duplicating the last (only) chunk "hell". -/
theorem C10_topk_pads_with_last_witness :
    (retrieve_context_for_ticker c10Fs [0] 2 4
      = .ok (([0] : List Nat).map
            (fun i => mkSnippet c10Fs 4 ([⟨pys "a.xml", 0⟩].getD i default))
          ++ List.replicate (2 - 1) (mkSnippet c10Fs 4 ([⟨pys "a.xml", 0⟩].getD 0 default))) ∧
    (([0] : List Nat).map (fun i => mkSnippet c10Fs 4 ([⟨pys "a.xml", 0⟩].getD i default))
        ++ List.replicate (2 - 1)
            (mkSnippet c10Fs 4 ([⟨pys "a.xml", 0⟩].getD 0 default))).length = 2) :=
  C10_topk_pads_with_last c10Fs [7] [⟨pys "a.xml", 0⟩] [0] 2 4
    rfl rfl (by decide) (by decide) (by decide) (by decide) (by decide)

end GenAIERT
